import Mathlib

/-!
Shallow embedding of the Pixiecore CLI configuration pipeline
(src/pixiecore/cli/cli.go of go.universe.tf/netboot) together with the
parts of its collaborators the pipeline depends on:

* the Go standard library `net.ParseIP` / `net.IP.To4` (the
  `--listen-addr` flag is declared with `cmd.Flags().IPP`, whose value
  is produced by `net.ParseIP` on the raw command-line token);
* the spf13/pflag flag-resolution rule (explicit value if the flag was
  set, otherwise the declared default);
* the spf13/viper environment lookup configured by `initConfig`.

Machine integers that matter here (IP address bytes, ports) are modelled
as `Nat` / `Int`; byte slices as `List Nat`.
-/

namespace Netboot

/-- Byte strings (Go `[]byte`). -/
abbrev Bytes := List Nat

/-! ### Go `net` package address model

Modelled from the Go standard library `net/ip.go` (the era used by this
repository): `dtoi`, `xtoi`, `parseIPv4`, `parseIPv6`, `ParseIP`,
`IPv4`, `IPv4zero` and `IP.To4`.  A `net.IP` is a byte slice of length
4 or 16; both parsers return the 16-byte form. -/

/-- Overflow cutoff used by Go `net.dtoi` / `net.xtoi` (`big = 0xFFFFFF`). -/
def bigCutoff : Nat := 0xFFFFFF

/-- Value of a decimal digit character, `none` for non-digits (Go
compares bytes: `'0' <= s[i] && s[i] <= '9'`; code points 48-57). -/
def digitVal (c : Char) : Option Nat :=
  if 48 ≤ c.toNat ∧ c.toNat ≤ 57 then some (c.toNat - 48) else none

/-- Value of a hexadecimal digit character, `none` otherwise (Go checks
the byte ranges 0-9, a-f, A-F; code points 48-57, 97-102, 65-70). -/
def hexVal (c : Char) : Option Nat :=
  if 48 ≤ c.toNat ∧ c.toNat ≤ 57 then some (c.toNat - 48)
  else if 97 ≤ c.toNat ∧ c.toNat ≤ 102 then some (c.toNat - 97 + 10)
  else if 65 ≤ c.toNat ∧ c.toNat ≤ 70 then some (c.toNat - 65 + 10)
  else none

/-- Accumulating loop of Go `net.dtoi`: consume decimal digits, failing
on overflow past `bigCutoff`; returns the value and the unconsumed rest. -/
def dtoiLoop : Nat → List Char → Option (Nat × List Char)
  | n, [] => some (n, [])
  | n, c :: cs =>
    match digitVal c with
    | none => some (n, c :: cs)
    | some d =>
      let m := n * 10 + d
      if bigCutoff ≤ m then none else dtoiLoop m cs

/-- Go `net.dtoi`: parse a nonempty decimal prefix. -/
def dtoi (s : List Char) : Option (Nat × List Char) :=
  match s with
  | [] => none
  | c :: _ => if (digitVal c).isSome then dtoiLoop 0 s else none

/-- Accumulating loop of Go `net.xtoi` (hexadecimal). -/
def xtoiLoop : Nat → List Char → Option (Nat × List Char)
  | n, [] => some (n, [])
  | n, c :: cs =>
    match hexVal c with
    | none => some (n, c :: cs)
    | some d =>
      let m := n * 16 + d
      if bigCutoff ≤ m then none else xtoiLoop m cs

/-- Go `net.xtoi`: parse a nonempty hexadecimal prefix. -/
def xtoi (s : List Char) : Option (Nat × List Char) :=
  match s with
  | [] => none
  | c :: _ => if (hexVal c).isSome then xtoiLoop 0 s else none

/-- One octet of a dotted quad: a decimal number that must fit a byte. -/
def parseOctet (s : List Char) : Option (Nat × List Char) :=
  match dtoi s with
  | none => none
  | some (n, rest) => if 0xFF < n then none else some (n, rest)

/-- Consume a literal dot. -/
def expectDot : List Char → Option (List Char)
  | '.' :: rest => some rest
  | _ => none

/-- Go `net.v4InV6Prefix`. -/
def v4InV6Pfx : Bytes := [0, 0, 0, 0, 0, 0, 0, 0, 0, 0, 0xFF, 0xFF]

/-- Go `net.IPv4`: the 16-byte form of an IPv4 address. -/
def goIPv4 (a b c d : Nat) : Bytes := v4InV6Pfx ++ [a, b, c, d]

/-- Go `net.IPv4zero` (the default value of the `--listen-addr` flag). -/
def iPv4zero : Bytes := goIPv4 0 0 0 0

/-- Go `net.parseIPv4`: four dot-separated decimal octets consuming the
whole string, returned in 16-byte form. -/
def parseIPv4 (s : List Char) : Option Bytes := do
  let (a, r1) ← parseOctet s
  let r1d ← expectDot r1
  let (b, r2) ← parseOctet r1d
  let r2d ← expectDot r2
  let (c, r3) ← parseOctet r2d
  let r3d ← expectDot r3
  let (d, r4) ← parseOctet r3d
  if r4.isEmpty then some (goIPv4 a b c d) else none

/-- Main loop of Go `net.parseIPv6`.  The state is the bytes accumulated
so far (Go index `j` is its length), the position of the `::` ellipsis
if one was seen, and the unparsed rest of the string.  Go's loop runs at
most 8 iterations (each appends two bytes and requires fewer than 16
accumulated); the fuel argument strictly dominates that bound, so the
fuel-exhausted branch is unreachable. -/
def v6Loop : Nat → Bytes → Option Nat → List Char → Option (Bytes × Option Nat × List Char)
  | 0, _, _, _ => none
  | fuel + 1, acc, ell, s =>
    match xtoi s with
    | none => none
    | some (n, s1) =>
      if 0xFFFF < n then none
      else if s1.head? = some '.' then
        -- trailing embedded IPv4 (Go: `if i1 < len(s) && s[i1] == '.'`)
        if ell.isNone && acc.length ≠ 12 then none
        else if 16 < acc.length + 4 then none
        else
          match parseIPv4 s with
          | none => none
          | some ip4 => some (acc ++ ip4.drop 12, ell, [])
      else
        let acc1 := acc ++ [n / 256, n % 256]
        match s1 with
        | [] => some (acc1, ell, [])
        | ':' :: rest =>
          match rest with
          | [] => none
          | ':' :: rest2 =>
            if ell.isSome then none
            else if rest2.isEmpty then some (acc1, some acc1.length, [])
            else if acc1.length < 16 then v6Loop fuel acc1 (some acc1.length) rest2
            else some (acc1, some acc1.length, rest2)
          | _ =>
            if acc1.length < 16 then v6Loop fuel acc1 ell rest
            else some (acc1, ell, rest)
        | _ => none

/-- Post-loop phase of Go `net.parseIPv6`: the whole string must have
been consumed; a short result is completed by expanding the ellipsis
with zero bytes; a full result must not also contain an ellipsis. -/
def v6Finish (acc : Bytes) (ell : Option Nat) (rem : List Char) : Option Bytes :=
  if rem ≠ [] then none
  else if acc.length < 16 then
    match ell with
    | none => none
    | some e => some (acc.take e ++ List.replicate (16 - acc.length) 0 ++ acc.drop e)
  else if ell.isSome then none
  else some acc

/-- Go `net.parseIPv6` (zone handling omitted: `ParseIP` calls it with
zones disallowed). -/
def parseIPv6 (s : List Char) : Option Bytes :=
  match s with
  | ':' :: ':' :: rest =>
    if rest.isEmpty then some (List.replicate 16 0)
    else
      match v6Loop 9 [] (some 0) rest with
      | none => none
      | some (acc, ell, rem) => v6Finish acc ell rem
  | _ =>
    match v6Loop 9 [] none s with
    | none => none
    | some (acc, ell, rem) => v6Finish acc ell rem

/-- Go `net.ParseIP`: dispatch on the first `.` or `:` in the string. -/
def parseIP (s : List Char) : Option Bytes :=
  match s.find? (fun c => c == '.' || c == ':') with
  | some c => if c == '.' then parseIPv4 s else parseIPv6 s
  | none => none

/-- ASCII whitespace (the subset of Go `unicode.IsSpace` relevant to
flag tokens), used by `strings.TrimSpace` in pflag's IP flag decoder. -/
def isSpaceChar (c : Char) : Bool :=
  c.toNat == 32 || (9 ≤ c.toNat && c.toNat ≤ 13)

/-- `strings.TrimSpace` on ASCII input. -/
def trimSpace (s : List Char) : List Char :=
  ((s.dropWhile isSpaceChar).reverse.dropWhile isSpaceChar).reverse

/-- The pflag `ipValue.Set` decoder: `net.ParseIP(strings.TrimSpace(s))`,
`none` meaning the flag-parse error `failed to parse IP`. -/
def parseIPString (s : String) : Option Bytes :=
  parseIP (trimSpace s.data)

/-- Go `net.IP.To4`: `some` of the 4-byte form for IPv4 and
IPv4-mapped-IPv6 addresses, `none` (Go `nil`) otherwise. -/
def to4 (ip : Bytes) : Option Bytes :=
  if ip.length == 4 then some ip
  else if ip.length == 16 && (ip.take 10).all (fun b => b == 0)
      && ip.getD 10 0 == 0xFF && ip.getD 11 0 == 0xFF then
    some (ip.drop 12)
  else none

/-! ### Firmware registry and server configuration -/

/-- Modelled from the spec: the `pixiecore` package (not included under
src/) declares `Firmware`, a closed enumeration of boot client classes;
spec section 3 lists legacy BIOS/UNDI (`FirmwareX86PC`), 32-bit UEFI
(`FirmwareEFI32`) and 64-bit UEFI (`FirmwareEFI64`), the three types
cli.go refers to. -/
inductive Firmware
  | x86PC
  | efi32
  | efi64
deriving DecidableEq

/-- A Go `map[pixiecore.Firmware][]byte`, extensionally. -/
abbrev FwMap := Firmware → Option Bytes

/-- Go map assignment `m[k] = v`. -/
def mapSet (m : FwMap) (k : Firmware) (v : Bytes) : FwMap :=
  fun k2 => if k2 = k then some v else m k2

/-- The empty map literal `map[pixiecore.Firmware][]byte{}`. -/
def emptyFwMap : FwMap := fun _ => none

/-- All members of the `Firmware` enumeration (possible keys of `Ipxe`). -/
def allFirmware : List Firmware := [Firmware.x86PC, Firmware.efi32, Firmware.efi64]

/-- The loop `for fwtype, bs := range Ipxe { ret.Ipxe[fwtype] = bs }`:
copy each present entry of `src` into `dst`. -/
def copyEntries (src : FwMap) : List Firmware → FwMap → FwMap
  | [], dst => dst
  | fw :: rest, dst =>
    copyEntries src rest
      (match src fw with
       | some bs => mapSet dst fw bs
       | none => dst)

/-- Copying every entry of `src` into a fresh empty map. -/
def copyFwMap (src : FwMap) : FwMap := copyEntries src allFirmware emptyFwMap

/-- Modelled from the spec: logging implementations (`logWithStdFmt`,
`logWithStdLog`, from a cli file not included under src/) are out of
scope; only which of the two is chosen matters (spec section 1). -/
inductive LoggerKind
  | stdFmt
  | stdLog
deriving DecidableEq

/-- Modelled from the spec: the fields of `pixiecore.Server` (not
included under src/) that cli.go assigns — the ServerConfig of spec
section 3.  `address` holds the IP whose `String()` form Go stores. -/
structure Server where
  ipxe : FwMap
  log : LoggerKind
  debug : Option LoggerKind
  httpPort : Int
  address : Option Bytes

/-- A fatal CLI error: `fatalf` prints `msg` and calls `os.Exit(1)`;
the `rootCmd.Execute` error path in `CLI` calls `os.Exit(-1)`. -/
structure Fatal where
  code : Int
  msg : String
deriving DecidableEq

/-- The file system visible to `ioutil.ReadFile`: contents by path,
`none` when the read fails. -/
abbrev FileSystem := String → Option Bytes

/-- `mustFile`: read the file fully or die via `fatalf` (exit code 1). -/
def mustFile (fs : FileSystem) (path : String) : Except Fatal Bytes :=
  match fs path with
  | some bs => Except.ok bs
  | none => Except.error { code := 1, msg := "could not read file " ++ path }

/-- One `if ipxeXxx != "" { ret.Ipxe[fw] = mustFile(ipxeXxx) }` step of
`serverFromFlags`. -/
def applyIpxeFlag (fs : FileSystem) (path : String) (fw : Firmware) (m : FwMap) :
    Except Fatal FwMap :=
  if path ≠ "" then
    match mustFile fs path with
    | Except.error e => Except.error e
    | Except.ok bs => Except.ok (mapSet m fw bs)
  else Except.ok m

/-! ### Flags -/

/-- The values `serverFromFlags` obtains from `cmd.Flags()` after
parsing: one field per flag declared in `serverConfigFlags`. -/
structure FlagSet where
  debug : Bool
  logTimestamps : Bool
  listenAddr : Option Bytes
  port : Int
  ipxeBios : String
  ipxeEfi32 : String
  ipxeEfi64 : String

/-- The operator's command line: for each declared flag, the explicitly
supplied value, or `none` when the flag was left unset.  Bool and int
flag values are taken post-decoding (their decoders are not at issue);
the IP-valued `listen-addr` is kept as the raw token because its
decoding is what the address claims are about. -/
structure FlagArgs where
  debug : Option Bool := none
  logTimestamps : Option Bool := none
  listenAddr : Option String := none
  port : Option Int := none
  ipxeBios : Option String := none
  ipxeEfi32 : Option String := none
  ipxeEfi64 : Option String := none

/-- pflag resolution for the flags of `serverConfigFlags`: an explicitly
set value wins, otherwise the declared default (`debug` false,
`log-timestamps` false, `listen-addr` `net.IPv4zero`, `port` 80, iPXE
paths empty).  A `listen-addr` token that `net.ParseIP` rejects is a
flag-parse error, which `CLI` turns into `os.Exit(-1)`. -/
def parseFlags (args : FlagArgs) : Except Fatal FlagSet :=
  match args.listenAddr with
  | none =>
    Except.ok
      { debug := args.debug.getD false
        logTimestamps := args.logTimestamps.getD false
        listenAddr := some iPv4zero
        port := args.port.getD 80
        ipxeBios := args.ipxeBios.getD ""
        ipxeEfi32 := args.ipxeEfi32.getD ""
        ipxeEfi64 := args.ipxeEfi64.getD "" }
  | some s =>
    match parseIPString s with
    | none => Except.error { code := -1, msg := "failed to parse IP: " ++ s }
    | some ip =>
      Except.ok
        { debug := args.debug.getD false
          logTimestamps := args.logTimestamps.getD false
          listenAddr := some ip
          port := args.port.getD 80
          ipxeBios := args.ipxeBios.getD ""
          ipxeEfi32 := args.ipxeEfi32.getD ""
          ipxeEfi64 := args.ipxeEfi64.getD "" }

/-- The guard `addr != nil && addr.To4() == nil` of `serverFromFlags`. -/
def addrNotIPv4 (addr : Option Bytes) : Bool :=
  match addr with
  | some a => (to4 a).isNone
  | none => false

/-- `serverFromFlags` (cli.go lines 91-154), given the parsed flag
values, the process-wide `Ipxe` registry and the file system: validate
(address first, then port), copy the registry into a fresh map, apply
the three iPXE path flags, then assemble the `pixiecore.Server`.
`ret.Debug = ret.Log` runs after the timestamp choice, so the record's
`debug` field uses the final logger. -/
def serverFromFlags (reg : FwMap) (fs : FileSystem) (fl : FlagSet) :
    Except Fatal Server :=
  if addrNotIPv4 fl.listenAddr then
    Except.error { code := 1, msg := "Listen address must be IPv4" }
  else if fl.port ≤ 0 then
    Except.error { code := 1, msg := "HTTP port must be >0" }
  else
    match applyIpxeFlag fs fl.ipxeBios Firmware.x86PC (copyFwMap reg) with
    | Except.error e => Except.error e
    | Except.ok m1 =>
      match applyIpxeFlag fs fl.ipxeEfi32 Firmware.efi32 m1 with
      | Except.error e => Except.error e
      | Except.ok m2 =>
        match applyIpxeFlag fs fl.ipxeEfi64 Firmware.efi64 m2 with
        | Except.error e => Except.error e
        | Except.ok m3 =>
          let lg := if fl.logTimestamps then LoggerKind.stdLog else LoggerKind.stdFmt
          Except.ok
            { ipxe := m3
              log := lg
              debug := if fl.debug then some lg else none
              httpPort := fl.port
              address := fl.listenAddr }

/-! ### Environment overlay (viper) -/

/-- A process environment. -/
abbrev Env := List (String × String)

/-- The viper state `initConfig` builds. -/
structure ViperState where
  envPfx : String
  automaticEnv : Bool

/-- `initConfig`: `viper.SetEnvPrefix("pixiecore"); viper.AutomaticEnv()`.
Nothing in the source ever invokes it or reads viper values, but the
state it would configure is modelled so the environment-variable claim
can be stated. -/
def initConfig : ViperState :=
  { envPfx := "pixiecore", automaticEnv := true }

/-- `strings.ToUpper` on ASCII strings (viper upper-cases the combined
environment key). -/
def toUpperAscii (s : String) : String :=
  String.mk (s.data.map fun c =>
    if 'a' ≤ c && c ≤ 'z' then Char.ofNat (c.toNat - 32) else c)

/-- The lookup `viper.Get(key)` would perform under `AutomaticEnv`:
the upper-cased prefix, an underscore, and the upper-cased key. -/
def viperGet (v : ViperState) (env : Env) (key : String) : Option String :=
  if v.automaticEnv then
    (env.find? (fun p => p.1 == toUpperAscii (v.envPfx ++ "_" ++ key))).map Prod.snd
  else none

/-! ### End-to-end server-command run -/

/-- Outcome of one invocation of a server subcommand: either the process
dies (`fatal`, with the `os.Exit` code) or a `pixiecore.Server`
configuration is produced and handed to the boot service. -/
inductive CLIResult
  | fatal (code : Int) (msg : String)
  | config (s : Server)

/-- Whether a configuration was produced. -/
def CLIResult.producedConfig : CLIResult → Bool
  | CLIResult.config _ => true
  | _ => false

/-- The message of a fatal outcome. -/
def fatalMsg : CLIResult → Option String
  | CLIResult.fatal _ m => some m
  | _ => none

/-- The exit code of a fatal outcome. -/
def fatalCode : CLIResult → Option Int
  | CLIResult.fatal c _ => some c
  | _ => none

/-- The HTTP port of a produced configuration. -/
def resolvedPort : CLIResult → Option Int
  | CLIResult.config s => some s.httpPort
  | _ => none

/-- One modern-mode server-command invocation: cobra parses the declared
flags (a parse error makes `rootCmd.Execute` return it, and `CLI` exits
with code -1), then `serverFromFlags` builds the configuration.  The
process environment is a parameter to mirror the running process, but no
code in the source consults it: `initConfig` is never invoked, and the
flag reads go through `cmd.Flags()`, not viper. -/
def runServerCmd (env : Env) (reg : FwMap) (fs : FileSystem) (args : FlagArgs) :
    CLIResult :=
  match parseFlags args with
  | Except.error e => CLIResult.fatal e.code e.msg
  | Except.ok fl =>
    match serverFromFlags reg fs fl with
    | Except.error e => CLIResult.fatal e.code e.msg
    | Except.ok s => CLIResult.config s

/-! ### Legacy versus modern dispatch -/

/-- Which of the two command-processing modes ran in an invocation. -/
structure CLITrace where
  legacyHandled : Bool
  routerExecuted : Bool
deriving DecidableEq

/-- The dispatch structure of `CLI`: `if v1compatCLI() { return }`
before `rootCmd.Execute()`.  The legacy detector (`v1compatCLI`, from a
cli file not included under src/) is abstracted as its boolean result. -/
def cliDispatch (v1compat : List String → Bool) (args : List String) : CLITrace :=
  if v1compat args then
    { legacyHandled := true, routerExecuted := false }
  else
    { legacyHandled := false, routerExecuted := true }

/-! ### Heap model for the registry copy

The fresh-copy claim is about Go map aliasing, so the registry copy of
`serverFromFlags` is additionally modelled one level lower, with maps
living at references in a heap. -/

/-- A heap of firmware maps: Go map values are references into it. -/
structure Heap where
  mem : Nat → FwMap
  next : Nat

/-- Dereference. -/
def Heap.read (h : Heap) (r : Nat) : FwMap := h.mem r

/-- Replace the map stored at a reference (a Go map mutation). -/
def Heap.write (h : Heap) (r : Nat) (m : FwMap) : Heap :=
  { h with mem := fun x => if x = r then m else h.mem x }

/-- Allocate a fresh map (`map[pixiecore.Firmware][]byte{}` evaluates to
a new reference). -/
def Heap.alloc (h : Heap) (m : FwMap) : Nat × Heap :=
  (h.next, { mem := fun x => if x = h.next then m else h.mem x, next := h.next + 1 })

/-- Lines 127-134 of cli.go in the heap model: allocate `ret.Ipxe` as a
fresh empty map, then run the copy loop from the registry at `regRef`. -/
def buildIpxeCopy (h : Heap) (regRef : Nat) : Nat × Heap :=
  let ar := h.alloc emptyFwMap
  let h2 := ar.2.write ar.1 (copyFwMap (ar.2.read regRef))
  (ar.1, h2)

/-- The iPXE path flag corresponding to a firmware type (`--ipxe-bios`,
`--ipxe-efi32`, `--ipxe-efi64`). -/
def ipxeFlagPath (fw : Firmware) (fl : FlagSet) : String :=
  match fw with
  | Firmware.x86PC => fl.ipxeBios
  | Firmware.efi32 => fl.ipxeEfi32
  | Firmware.efi64 => fl.ipxeEfi64

/-- The iPXE path flag corresponding to a firmware type, on the command
line (explicitly supplied value, `none` when unset). -/
def ipxeFlagArg (fw : Firmware) (args : FlagArgs) : Option String :=
  match fw with
  | Firmware.x86PC => args.ipxeBios
  | Firmware.efi32 => args.ipxeEfi32
  | Firmware.efi64 => args.ipxeEfi64

/-! ### Concrete inputs used in witnesses and counterexamples -/

/-- A file system on which every read fails. -/
def noFiles : FileSystem := fun _ => none

/-- An environment carrying `PIXIECORE_PORT=8080`. -/
def envPort8080 : Env := [("PIXIECORE_PORT", "8080")]

/-- `--port 0`. -/
def argsPort0 : FlagArgs := { port := some 0 }

/-- `--listen-addr ::1 --port 0`. -/
def argsAddr6Port0 : FlagArgs := { listenAddr := some "::1", port := some 0 }

/-- `--listen-addr ::1`. -/
def argsAddr6 : FlagArgs := { listenAddr := some "::1" }

/-- `--listen-addr ::ffff:1.2.3.4` (an IPv4-mapped IPv6 literal). -/
def argsMapped : FlagArgs := { listenAddr := some "::ffff:1.2.3.4" }

/-- `--ipxe-efi64 missing.bin`. -/
def argsMissingEfi64 : FlagArgs := { ipxeEfi64 := some "missing.bin" }

/-- `--listen-addr garbage --ipxe-bios missing.bin`: a firmware path
flag names an unreadable file while another flag value fails to decode. -/
def argsBadAddrMissingBios : FlagArgs :=
  { listenAddr := some "garbage", ipxeBios := some "missing.bin" }

/-- Resolved flags with an IPv6 listen address and port 0. -/
def flagsBothBad : FlagSet :=
  { debug := false, logTimestamps := false,
    listenAddr := some (List.replicate 15 0 ++ [1]), port := 0,
    ipxeBios := "", ipxeEfi32 := "", ipxeEfi64 := "" }

/-- A registry with a pre-registered BIOS binary. -/
def regPre : FwMap := fun fw => if fw = Firmware.x86PC then some [1, 2, 3] else none

/-- A file system holding `fw.bin`. -/
def fsBios : FileSystem := fun p => if p = "fw.bin" then some [9, 9] else none

/-- Resolved flags with `--ipxe-bios fw.bin` and everything else default. -/
def flBios : FlagSet :=
  { debug := false, logTimestamps := false, listenAddr := some iPv4zero, port := 80,
    ipxeBios := "fw.bin", ipxeEfi32 := "", ipxeEfi64 := "" }

/-- The server `serverFromFlags regPre fsBios flBios` produces. -/
def srvBios : Server :=
  { ipxe := mapSet (copyFwMap regPre) Firmware.x86PC [9, 9], log := LoggerKind.stdFmt,
    debug := none, httpPort := 80, address := some iPv4zero }

/-- Resolved flags with every flag at its default. -/
def flNoPaths : FlagSet :=
  { debug := false, logTimestamps := false, listenAddr := some iPv4zero, port := 80,
    ipxeBios := "", ipxeEfi32 := "", ipxeEfi64 := "" }

/-- The server `serverFromFlags regPre fs flNoPaths` produces. -/
def srvNoPaths : Server :=
  { ipxe := copyFwMap regPre, log := LoggerKind.stdFmt, debug := none,
    httpPort := 80, address := some iPv4zero }

/-- Resolved flags with `--debug --log-timestamps`. -/
def flDebugTs : FlagSet :=
  { debug := true, logTimestamps := true, listenAddr := some iPv4zero, port := 80,
    ipxeBios := "", ipxeEfi32 := "", ipxeEfi64 := "" }

/-- The server `serverFromFlags emptyFwMap fs flDebugTs` produces. -/
def srvDebugTs : Server :=
  { ipxe := copyFwMap emptyFwMap, log := LoggerKind.stdLog,
    debug := some LoggerKind.stdLog, httpPort := 80, address := some iPv4zero }

/-- A one-cell heap whose reference 0 is the (empty) registry. -/
def heap1 : Heap := { mem := fun _ => emptyFwMap, next := 1 }

/-! ### Helper lemmas -/

theorem mapSet_self (m : FwMap) (k : Firmware) (v : Bytes) :
    mapSet m k v k = some v := by
  simp [mapSet]

theorem mapSet_other (m : FwMap) (k : Firmware) (v : Bytes) (k2 : Firmware)
    (h : k2 ≠ k) : mapSet m k v k2 = m k2 := by
  simp [mapSet, h]

theorem copyFwMap_eq (src : FwMap) (fw : Firmware) : copyFwMap src fw = src fw := by
  cases h0 : src Firmware.x86PC <;> cases h1 : src Firmware.efi32 <;>
    cases h2 : src Firmware.efi64 <;> cases fw <;>
    simp [copyFwMap, copyEntries, allFirmware, mapSet, emptyFwMap, h0, h1, h2]

theorem applyIpxeFlag_empty (fs : FileSystem) (fw : Firmware) (m : FwMap) :
    applyIpxeFlag fs "" fw m = Except.ok m := by
  simp [applyIpxeFlag]

theorem applyIpxeFlag_of_file (fs : FileSystem) (path : String) (fw : Firmware)
    (m : FwMap) (bs : Bytes) (hne : path ≠ "") (hfs : fs path = some bs) :
    applyIpxeFlag fs path fw m = Except.ok (mapSet m fw bs) := by
  simp [applyIpxeFlag, mustFile, hne, hfs]

theorem applyIpxeFlag_of_missing (fs : FileSystem) (path : String) (fw : Firmware)
    (m : FwMap) (hne : path ≠ "") (hfs : fs path = none) :
    applyIpxeFlag fs path fw m
      = Except.error { code := 1, msg := "could not read file " ++ path } := by
  simp [applyIpxeFlag, mustFile, hne, hfs]

theorem applyIpxeFlag_ok_other (fs : FileSystem) (path : String) (fw : Firmware)
    (m m2 : FwMap) (fw2 : Firmware) (h : applyIpxeFlag fs path fw m = Except.ok m2)
    (hne : fw2 ≠ fw) : m2 fw2 = m fw2 := by
  by_cases hp : path = ""
  · subst hp
    rw [applyIpxeFlag_empty] at h
    cases h
    rfl
  · unfold applyIpxeFlag at h
    simp [hp] at h
    cases hfs : fs path with
    | none => simp [mustFile, hfs] at h
    | some bs =>
      simp [mustFile, hfs] at h
      rw [← h, mapSet_other]
      exact hne

/-- Inversion of a successful `serverFromFlags` run: both validation
checks passed and the result's fields come from the iPXE-merge chain,
the timestamp choice and the debug choice. -/
theorem serverFromFlags_ok (reg : FwMap) (fs : FileSystem) (fl : FlagSet)
    (s : Server) (h : serverFromFlags reg fs fl = Except.ok s) :
    addrNotIPv4 fl.listenAddr = false ∧ 0 < fl.port ∧
    (∃ m1 m2,
      applyIpxeFlag fs fl.ipxeBios Firmware.x86PC (copyFwMap reg) = Except.ok m1 ∧
      applyIpxeFlag fs fl.ipxeEfi32 Firmware.efi32 m1 = Except.ok m2 ∧
      applyIpxeFlag fs fl.ipxeEfi64 Firmware.efi64 m2 = Except.ok s.ipxe) ∧
    s.log = (if fl.logTimestamps then LoggerKind.stdLog else LoggerKind.stdFmt) ∧
    s.debug = (if fl.debug then some s.log else none) ∧
    s.httpPort = fl.port ∧ s.address = fl.listenAddr := by
  unfold serverFromFlags at h
  by_cases ha : addrNotIPv4 fl.listenAddr
  · simp [ha] at h
  · simp only [ha, if_false, Bool.false_eq_true] at h
    by_cases hp : fl.port ≤ 0
    · simp [hp] at h
    · simp only [hp, if_false] at h
      refine ⟨by simp [ha], by omega, ?_⟩
      split at h
      · cases h
      · rename_i m1 h1
        split at h
        · cases h
        · rename_i m2 h2
          split at h
          · cases h
          · rename_i m3 h3
            cases h
            exact ⟨⟨m1, m2, h1, h2, h3⟩, rfl, rfl, rfl, rfl⟩

/-- The first validation check: a set non-IPv4 address is fatal before
anything else is examined. -/
theorem serverFromFlags_addr_bad (reg : FwMap) (fs : FileSystem) (fl : FlagSet)
    (ha : addrNotIPv4 fl.listenAddr = true) :
    serverFromFlags reg fs fl
      = Except.error { code := 1, msg := "Listen address must be IPv4" } := by
  simp [serverFromFlags, ha]

/-- The second validation check: with the address check passed, a
non-positive port is fatal. -/
theorem serverFromFlags_port_bad (reg : FwMap) (fs : FileSystem) (fl : FlagSet)
    (ha : addrNotIPv4 fl.listenAddr = false) (hp : fl.port ≤ 0) :
    serverFromFlags reg fs fl
      = Except.error { code := 1, msg := "HTTP port must be >0" } := by
  simp [serverFromFlags, ha, hp]

/-- A failing iPXE-flag application is a `fatalf` file-read error, exit
code 1. -/
theorem applyIpxeFlag_error_code (fs : FileSystem) (path : String) (fw : Firmware)
    (m : FwMap) (e : Fatal) (h : applyIpxeFlag fs path fw m = Except.error e) :
    e.code = 1 := by
  unfold applyIpxeFlag at h
  split at h
  · split at h
    · rename_i e1 he
      cases h
      unfold mustFile at he
      split at he
      · cases he
      · cases he
        rfl
    · cases h
  · cases h

/-- Every error `serverFromFlags` can produce is a `fatalf`, exit code 1. -/
theorem serverFromFlags_error_code (reg : FwMap) (fs : FileSystem) (fl : FlagSet)
    (e : Fatal) (h : serverFromFlags reg fs fl = Except.error e) : e.code = 1 := by
  unfold serverFromFlags at h
  by_cases ha : addrNotIPv4 fl.listenAddr
  · simp [ha] at h
    rw [← h]
  · simp only [ha, if_false, Bool.false_eq_true] at h
    by_cases hp : fl.port ≤ 0
    · simp [hp] at h
      rw [← h]
    · simp only [hp, if_false] at h
      split at h
      · rename_i e1 h1
        cases h
        exact applyIpxeFlag_error_code _ _ _ _ _ h1
      · rename_i m1 h1
        split at h
        · rename_i e2 h2
          cases h
          exact applyIpxeFlag_error_code _ _ _ _ _ h2
        · rename_i m2 h2
          split at h
          · rename_i e3 h3
            cases h
            exact applyIpxeFlag_error_code _ _ _ _ _ h3
          · cases h

/-- Inversion of successful flag parsing: every resolved value is the
explicit one when set, the declared default otherwise. -/
theorem parseFlags_ok_fields (args : FlagArgs) (fl : FlagSet)
    (h : parseFlags args = Except.ok fl) :
    fl.port = args.port.getD 80 ∧ fl.debug = args.debug.getD false ∧
    fl.logTimestamps = args.logTimestamps.getD false ∧
    fl.ipxeBios = args.ipxeBios.getD "" ∧
    fl.ipxeEfi32 = args.ipxeEfi32.getD "" ∧
    fl.ipxeEfi64 = args.ipxeEfi64.getD "" := by
  unfold parseFlags at h
  split at h
  · cases h
    exact ⟨rfl, rfl, rfl, rfl, rfl, rfl⟩
  · split at h
    · cases h
    · cases h
      exact ⟨rfl, rfl, rfl, rfl, rfl, rfl⟩

/-- Successful flag parsing resolves `listen-addr` to the parsed
explicit token, or to `net.IPv4zero` when the flag was unset. -/
theorem parseFlags_ok_listenAddr (args : FlagArgs) (fl : FlagSet)
    (h : parseFlags args = Except.ok fl) :
    (args.listenAddr = none ∧ fl.listenAddr = some iPv4zero) ∨
    (∃ str ip, args.listenAddr = some str ∧ parseIPString str = some ip ∧
      fl.listenAddr = some ip) := by
  unfold parseFlags at h
  split at h
  · rename_i hla
    cases h
    exact Or.inl ⟨hla, rfl⟩
  · rename_i str hla
    split at h
    · cases h
    · rename_i ip hip
      cases h
      exact Or.inr ⟨str, ip, hla, hip, rfl⟩

/-- A flag-parse error carries the `os.Exit(-1)` code of `CLI`. -/
theorem parseFlags_error_code (args : FlagArgs) (e : Fatal)
    (h : parseFlags args = Except.error e) : e.code = -1 := by
  unfold parseFlags at h
  split at h
  · cases h
  · split at h
    · cases h
      rfl
    · cases h

/-- Case analysis of a server-command run: a flag-parse error, a
`serverFromFlags` fatal, or a produced configuration. -/
theorem runServerCmd_cases (env : Env) (reg : FwMap) (fs : FileSystem)
    (args : FlagArgs) :
    (∃ e, parseFlags args = Except.error e ∧
      runServerCmd env reg fs args = CLIResult.fatal e.code e.msg) ∨
    (∃ fl e, parseFlags args = Except.ok fl ∧
      serverFromFlags reg fs fl = Except.error e ∧
      runServerCmd env reg fs args = CLIResult.fatal e.code e.msg) ∨
    (∃ fl s, parseFlags args = Except.ok fl ∧
      serverFromFlags reg fs fl = Except.ok s ∧
      runServerCmd env reg fs args = CLIResult.config s) := by
  cases hpf : parseFlags args with
  | error e =>
    refine Or.inl ⟨e, rfl, ?_⟩
    unfold runServerCmd
    rw [hpf]
  | ok fl =>
    cases hsf : serverFromFlags reg fs fl with
    | error e =>
      refine Or.inr (Or.inl ⟨fl, e, rfl, hsf, ?_⟩)
      unfold runServerCmd
      rw [hpf]
      show (match serverFromFlags reg fs fl with
        | Except.error e => CLIResult.fatal e.code e.msg
        | Except.ok s => CLIResult.config s) = _
      rw [hsf]
    | ok s =>
      refine Or.inr (Or.inr ⟨fl, s, rfl, hsf, ?_⟩)
      unfold runServerCmd
      rw [hpf]
      show (match serverFromFlags reg fs fl with
        | Except.error e => CLIResult.fatal e.code e.msg
        | Except.ok s => CLIResult.config s) = _
      rw [hsf]

/-- A produced configuration comes from successful flag parsing followed
by a successful `serverFromFlags`. -/
theorem runServerCmd_config (env : Env) (reg : FwMap) (fs : FileSystem)
    (args : FlagArgs) (s : Server)
    (h : runServerCmd env reg fs args = CLIResult.config s) :
    ∃ fl, parseFlags args = Except.ok fl ∧ serverFromFlags reg fs fl = Except.ok s := by
  rcases runServerCmd_cases env reg fs args with
    ⟨e, hpf, hr⟩ | ⟨fl, e, hok, hsf, hr⟩ | ⟨fl, s2, hok, hsf, hr⟩
  · rw [hr] at h
    cases h
  · rw [hr] at h
    cases h
  · rw [hr] at h
    cases h
    exact ⟨fl, hok, hsf⟩

/-! ### Claims -/

/-- Claim C1 (refuted; the code disagrees with the documented intent):
the claim asserts precedence explicit flag > environment variable >
built-in default, with `PIXIECORE_PORT=8080` and `--port` unset
resolving to 8080.  In the code the environment variable is discoverable
by the lookup `initConfig` would configure, yet with `--port` unset the
resolved port is the built-in default 80: `serverFromFlags` reads flags
only through `cmd.Flags()`, `initConfig` is never invoked, and no code
consults viper, so the whole run is independent of the environment.
The explicit-flag half (`--port 9000` resolves to 9000) does hold. -/
theorem envvar_ignored_port_resolution :
    viperGet initConfig envPort8080 "port" = some "8080" ∧
    resolvedPort (runServerCmd envPort8080 emptyFwMap noFiles {}) = some 80 ∧
    resolvedPort (runServerCmd envPort8080 emptyFwMap noFiles { port := some 9000 })
      = some 9000 ∧
    (∀ (e1 e2 : Env) (reg : FwMap) (fs : FileSystem) (args : FlagArgs),
      runServerCmd e1 reg fs args = runServerCmd e2 reg fs args) := by
  refine ⟨?_, rfl, rfl, fun _ _ _ _ _ => rfl⟩
  rfl

/-- Claim C2 counterexample: with `--listen-addr ::1 --port 0` — the port
non-positive and the listen address non-IPv4 — the reported fatal error
is the listen-address error, not the port error the claim asserts. -/
theorem port_error_not_reported_when_addr_bad :
    fatalMsg (runServerCmd [] emptyFwMap noFiles argsAddr6Port0)
      = some "Listen address must be IPv4" ∧
    fatalMsg (runServerCmd [] emptyFwMap noFiles argsAddr6Port0)
      ≠ some "HTTP port must be >0" := by
  exact ⟨rfl, by decide⟩

/-- Claim C2 (amended): validation checks run in the order listen-address
IPv4 check first, then port positivity, with the first failure winning:
whenever the resolved listen address is set and not IPv4 — in particular
whenever additionally the port is non-positive — the reported fatal
error is the address error. -/
theorem addr_error_reported_first (reg : FwMap) (fs : FileSystem) (fl : FlagSet)
    (a : Bytes) (ha : fl.listenAddr = some a) (hto4 : to4 a = none) :
    serverFromFlags reg fs fl
      = Except.error { code := 1, msg := "Listen address must be IPv4" } := by
  apply serverFromFlags_addr_bad
  simp [addrNotIPv4, ha, hto4]

/-- Witness for C2's amended theorem at `--listen-addr ::1 --port 0`. -/
theorem addr_error_reported_first_witness :
    serverFromFlags emptyFwMap noFiles flagsBothBad
      = Except.error { code := 1, msg := "Listen address must be IPv4" } :=
  addr_error_reported_first emptyFwMap noFiles flagsBothBad
    (List.replicate 15 0 ++ [1]) rfl rfl

/-- Claim C3: for every explicitly supplied port value less than or
equal to 0, resolution ends fatally with a non-zero exit code and no
`pixiecore.Server` is produced. -/
theorem nonpositive_port_fatal (env : Env) (reg : FwMap) (fs : FileSystem)
    (args : FlagArgs) (p : Int) (hset : args.port = some p) (hle : p ≤ 0) :
    (∀ s, runServerCmd env reg fs args ≠ CLIResult.config s) ∧
    (∃ c m, runServerCmd env reg fs args = CLIResult.fatal c m ∧ c ≠ 0) := by
  have hport : ∀ fl, parseFlags args = Except.ok fl → fl.port ≤ 0 := by
    intro fl hfl
    have hpf := (parseFlags_ok_fields args fl hfl).1
    rw [hpf, hset]
    simpa using hle
  constructor
  · intro s hs
    obtain ⟨fl, hok, hsf⟩ := runServerCmd_config env reg fs args s hs
    have hpos := (serverFromFlags_ok reg fs fl s hsf).2.1
    have hneg := hport fl hok
    omega
  · rcases runServerCmd_cases env reg fs args with
      ⟨e, hpf, hr⟩ | ⟨fl, e, hok, hsf, hr⟩ | ⟨fl, s, hok, hsf, hr⟩
    · exact ⟨e.code, e.msg, hr, by rw [parseFlags_error_code args e hpf]; norm_num⟩
    · exact ⟨e.code, e.msg, hr, by rw [serverFromFlags_error_code reg fs fl e hsf]; norm_num⟩
    · exfalso
      have hpos := (serverFromFlags_ok reg fs fl s hsf).2.1
      have hneg := hport fl hok
      omega

/-- Witness for C3 at `--port 0`. -/
theorem nonpositive_port_fatal_witness :
    (∀ s, runServerCmd [] emptyFwMap noFiles argsPort0 ≠ CLIResult.config s) ∧
    (∃ c m, runServerCmd [] emptyFwMap noFiles argsPort0 = CLIResult.fatal c m ∧ c ≠ 0) :=
  nonpositive_port_fatal [] emptyFwMap noFiles argsPort0 0 rfl (le_refl 0)

/-- Claim C4 counterexample: the listen-address value `::ffff:1.2.3.4`
is an IPv6 literal (parsed by the IPv6 branch of `net.ParseIP`, and not
a valid IPv4 literal), yet resolution succeeds and produces a
configuration, because `To4` accepts the IPv4-mapped form. -/
theorem mapped_ipv6_literal_accepted :
    (runServerCmd [] emptyFwMap noFiles argsMapped).producedConfig = true ∧
    parseIPString "::ffff:1.2.3.4" = some (goIPv4 1 2 3 4) ∧
    parseIPv4 ("::ffff:1.2.3.4".data) = none ∧
    to4 (goIPv4 1 2 3 4) = some [1, 2, 3, 4] :=
  ⟨rfl, rfl, rfl, rfl⟩

/-- Claim C4 (amended): for every listen-address flag value that is not a
valid IP literal, or whose parsed address has no IPv4 form (`To4` nil,
i.e. IPv6 other than IPv4-mapped), resolution fails fatally with a
non-zero exit code and no configuration is produced; a set listen
address passes validation only if `To4` of its parsed address is
non-nil, which admits IPv4-mapped IPv6 literals besides IPv4 literals. -/
theorem non_v4_listen_addr_fatal (env : Env) (reg : FwMap) (fs : FileSystem)
    (args : FlagArgs) (str : String) (hset : args.listenAddr = some str)
    (hbad : parseIPString str = none ∨
      ∃ a, parseIPString str = some a ∧ to4 a = none) :
    (∀ s, runServerCmd env reg fs args ≠ CLIResult.config s) ∧
    (∃ c m, runServerCmd env reg fs args = CLIResult.fatal c m ∧ c ≠ 0) := by
  have hfl : ∀ fl, parseFlags args = Except.ok fl →
      addrNotIPv4 fl.listenAddr = true := by
    intro fl hok
    rcases parseFlags_ok_listenAddr args fl hok with
      ⟨hnone, -⟩ | ⟨str2, ip, hsome, hip, hla⟩
    · rw [hset] at hnone
      cases hnone
    · rw [hset] at hsome
      injection hsome with hstr
      subst hstr
      rcases hbad with hnone | ⟨a, hpa, hto4⟩
      · rw [hnone] at hip
        cases hip
      · rw [hpa] at hip
        injection hip with hipv
        subst hipv
        simp [addrNotIPv4, hla, hto4]
  constructor
  · intro s hs
    obtain ⟨fl, hok, hsf⟩ := runServerCmd_config env reg fs args s hs
    have haddr := (serverFromFlags_ok reg fs fl s hsf).1
    rw [hfl fl hok] at haddr
    cases haddr
  · rcases runServerCmd_cases env reg fs args with
      ⟨e, hpf, hr⟩ | ⟨fl, e, hok, hsf, hr⟩ | ⟨fl, s, hok, hsf, hr⟩
    · exact ⟨e.code, e.msg, hr, by rw [parseFlags_error_code args e hpf]; norm_num⟩
    · exact ⟨e.code, e.msg, hr, by rw [serverFromFlags_error_code reg fs fl e hsf]; norm_num⟩
    · exfalso
      have haddr := (serverFromFlags_ok reg fs fl s hsf).1
      rw [hfl fl hok] at haddr
      cases haddr

/-- Witness for C4's amended theorem at `--listen-addr ::1`. -/
theorem non_v4_listen_addr_fatal_witness :
    (∀ s, runServerCmd [] emptyFwMap noFiles argsAddr6 ≠ CLIResult.config s) ∧
    (∃ c m, runServerCmd [] emptyFwMap noFiles argsAddr6 = CLIResult.fatal c m ∧ c ≠ 0) :=
  non_v4_listen_addr_fatal [] emptyFwMap noFiles argsAddr6 "::1" rfl
    (Or.inr ⟨List.replicate 15 0 ++ [1], by rfl, by rfl⟩)

/-- Claim C5: a flag-supplied iPXE binary overrides the pre-registered
binary for the same firmware type — the resulting entry is the file's
contents, not the registry's bytes. -/
theorem flag_supplied_binary_overrides (reg : FwMap) (fs : FileSystem) (fl : FlagSet)
    (s : Server) (fw : Firmware) (p : String) (bs pre : Bytes)
    (hpath : ipxeFlagPath fw fl = p) (hne : p ≠ "") (hfile : fs p = some bs)
    (hpre : reg fw = some pre)
    (hok : serverFromFlags reg fs fl = Except.ok s) :
    s.ipxe fw = some bs := by
  obtain ⟨-, -, ⟨m1, m2, h1, h2, h3⟩, -⟩ := serverFromFlags_ok reg fs fl s hok
  cases fw with
  | x86PC =>
    have hp2 : fl.ipxeBios = p := hpath
    have e3 : s.ipxe Firmware.x86PC = m2 Firmware.x86PC :=
      applyIpxeFlag_ok_other fs fl.ipxeEfi64 Firmware.efi64 m2 s.ipxe
        Firmware.x86PC h3 (by decide)
    have e2 : m2 Firmware.x86PC = m1 Firmware.x86PC :=
      applyIpxeFlag_ok_other fs fl.ipxeEfi32 Firmware.efi32 m1 m2
        Firmware.x86PC h2 (by decide)
    have e1 : m1 = mapSet (copyFwMap reg) Firmware.x86PC bs := by
      rw [hp2, applyIpxeFlag_of_file fs p Firmware.x86PC (copyFwMap reg) bs hne hfile] at h1
      injection h1 with hh
      exact hh.symm
    rw [e3, e2, e1, mapSet_self]
  | efi32 =>
    have hp2 : fl.ipxeEfi32 = p := hpath
    have e3 : s.ipxe Firmware.efi32 = m2 Firmware.efi32 :=
      applyIpxeFlag_ok_other fs fl.ipxeEfi64 Firmware.efi64 m2 s.ipxe
        Firmware.efi32 h3 (by decide)
    have e2 : m2 = mapSet m1 Firmware.efi32 bs := by
      rw [hp2, applyIpxeFlag_of_file fs p Firmware.efi32 m1 bs hne hfile] at h2
      injection h2 with hh
      exact hh.symm
    rw [e3, e2, mapSet_self]
  | efi64 =>
    have hp2 : fl.ipxeEfi64 = p := hpath
    rw [hp2, applyIpxeFlag_of_file fs p Firmware.efi64 m2 bs hne hfile] at h3
    injection h3 with hh
    rw [← hh, mapSet_self]

/-- Witness for C5: registry pre-registers `[1, 2, 3]` for BIOS,
`--ipxe-bios fw.bin` supplies `[9, 9]`; the result holds `[9, 9]`. -/
theorem flag_supplied_binary_overrides_witness :
    srvBios.ipxe Firmware.x86PC = some [9, 9] :=
  flag_supplied_binary_overrides regPre fsBios flBios srvBios Firmware.x86PC
    "fw.bin" [9, 9] [1, 2, 3] rfl (by decide) rfl rfl rfl

/-- Claim C6: a pre-registered binary whose firmware type has no
corresponding path flag set survives the merge byte-for-byte. -/
theorem preregistered_binary_unchanged (reg : FwMap) (fs : FileSystem) (fl : FlagSet)
    (s : Server) (fw : Firmware) (pre : Bytes)
    (hpath : ipxeFlagPath fw fl = "") (hpre : reg fw = some pre)
    (hok : serverFromFlags reg fs fl = Except.ok s) :
    s.ipxe fw = some pre := by
  obtain ⟨-, -, ⟨m1, m2, h1, h2, h3⟩, -⟩ := serverFromFlags_ok reg fs fl s hok
  cases fw with
  | x86PC =>
    have hp2 : fl.ipxeBios = "" := hpath
    rw [hp2, applyIpxeFlag_empty] at h1
    injection h1 with hh
    have e3 : s.ipxe Firmware.x86PC = m2 Firmware.x86PC :=
      applyIpxeFlag_ok_other fs fl.ipxeEfi64 Firmware.efi64 m2 s.ipxe
        Firmware.x86PC h3 (by decide)
    have e2 : m2 Firmware.x86PC = m1 Firmware.x86PC :=
      applyIpxeFlag_ok_other fs fl.ipxeEfi32 Firmware.efi32 m1 m2
        Firmware.x86PC h2 (by decide)
    rw [e3, e2, ← hh, copyFwMap_eq, hpre]
  | efi32 =>
    have hp2 : fl.ipxeEfi32 = "" := hpath
    rw [hp2, applyIpxeFlag_empty] at h2
    injection h2 with hh
    have e3 : s.ipxe Firmware.efi32 = m2 Firmware.efi32 :=
      applyIpxeFlag_ok_other fs fl.ipxeEfi64 Firmware.efi64 m2 s.ipxe
        Firmware.efi32 h3 (by decide)
    have e1 : m1 Firmware.efi32 = copyFwMap reg Firmware.efi32 :=
      applyIpxeFlag_ok_other fs fl.ipxeBios Firmware.x86PC (copyFwMap reg) m1
        Firmware.efi32 h1 (by decide)
    rw [e3, ← hh, e1, copyFwMap_eq, hpre]
  | efi64 =>
    have hp2 : fl.ipxeEfi64 = "" := hpath
    rw [hp2, applyIpxeFlag_empty] at h3
    injection h3 with hh
    have e2 : m2 Firmware.efi64 = m1 Firmware.efi64 :=
      applyIpxeFlag_ok_other fs fl.ipxeEfi32 Firmware.efi32 m1 m2
        Firmware.efi64 h2 (by decide)
    have e1 : m1 Firmware.efi64 = copyFwMap reg Firmware.efi64 :=
      applyIpxeFlag_ok_other fs fl.ipxeBios Firmware.x86PC (copyFwMap reg) m1
        Firmware.efi64 h1 (by decide)
    rw [← hh, e2, e1, copyFwMap_eq, hpre]

/-- Witness for C6: registry pre-registers `[1, 2, 3]` for BIOS, no path
flags set; the result still holds `[1, 2, 3]`. -/
theorem preregistered_binary_unchanged_witness :
    srvNoPaths.ipxe Firmware.x86PC = some [1, 2, 3] :=
  preregistered_binary_unchanged regPre noFiles flNoPaths srvNoPaths
    Firmware.x86PC [1, 2, 3] rfl rfl rfl

/-- Claim C7: legacy handling and modern dispatch are mutually
exclusive — an invocation the legacy detector recognizes never reaches
the command router, and never are both modes active. -/
theorem legacy_and_modern_mutually_exclusive :
    ∀ (det : List String → Bool) (args : List String),
      (det args = true →
        cliDispatch det args = { legacyHandled := true, routerExecuted := false }) ∧
      ¬((cliDispatch det args).legacyHandled = true ∧
        (cliDispatch det args).routerExecuted = true) := by
  intro det args
  constructor
  · intro hdet
    simp [cliDispatch, hdet]
  · intro hboth
    unfold cliDispatch at hboth
    by_cases hdet : det args <;> simp [hdet] at hboth

/-- Witness for C7 with a detector that recognizes every invocation. -/
theorem legacy_and_modern_mutually_exclusive_witness :
    cliDispatch (fun _ => true) [] = { legacyHandled := true, routerExecuted := false } :=
  (legacy_and_modern_mutually_exclusive (fun _ => true) []).1 rfl

/-- Claim C8 counterexample: in the invocation `--listen-addr garbage
--ipxe-bios missing.bin` a firmware path flag names a file that cannot
be read, yet the process exits with code -1 (`CLI`'s `Execute` error
path for the undecodable flag value), not the exit code 1 the claim
asserts for every such invocation; no configuration is produced. -/
theorem missing_firmware_file_exit_code_not_one :
    fatalCode (runServerCmd [] emptyFwMap noFiles argsBadAddrMissingBios)
      = some (-1) ∧
    fatalCode (runServerCmd [] emptyFwMap noFiles argsBadAddrMissingBios)
      ≠ some 1 ∧
    (runServerCmd [] emptyFwMap noFiles argsBadAddrMissingBios).producedConfig
      = false :=
  ⟨rfl, by decide, rfl⟩

/-- Claim C8 (amended): for every invocation in which any of the three
firmware path flags names a file that cannot be fully read, no
configuration is ever handed downstream and the process terminates
fatally with a non-zero exit code; whenever the flag values themselves
decode — in particular in the claim's `--ipxe-bios missing.bin`
scenario — the run dies through `fatalf` with exit code exactly 1. -/
theorem unreadable_firmware_flag_fatal (env : Env) (reg : FwMap) (fs : FileSystem)
    (args : FlagArgs) (fw : Firmware) (p : String)
    (hset : ipxeFlagArg fw args = some p) (hne : p ≠ "") (hmiss : fs p = none) :
    (∀ s, runServerCmd env reg fs args ≠ CLIResult.config s) ∧
    (∃ c m, runServerCmd env reg fs args = CLIResult.fatal c m ∧ c ≠ 0) ∧
    (∀ fl, parseFlags args = Except.ok fl →
      ∃ m, runServerCmd env reg fs args = CLIResult.fatal 1 m) := by
  have hbad : ∀ fl s, parseFlags args = Except.ok fl →
      serverFromFlags reg fs fl ≠ Except.ok s := by
    intro fl s hok hsf
    obtain ⟨-, -, ⟨m1, m2, h1, h2, h3⟩, -⟩ := serverFromFlags_ok reg fs fl s hsf
    obtain ⟨-, -, -, hbios, hefi32, hefi64⟩ := parseFlags_ok_fields args fl hok
    cases fw with
    | x86PC =>
      have hb : fl.ipxeBios = p := by
        rw [hbios, show args.ipxeBios = some p from hset]
        rfl
      rw [hb, applyIpxeFlag_of_missing fs p Firmware.x86PC (copyFwMap reg) hne hmiss] at h1
      cases h1
    | efi32 =>
      have hb : fl.ipxeEfi32 = p := by
        rw [hefi32, show args.ipxeEfi32 = some p from hset]
        rfl
      rw [hb, applyIpxeFlag_of_missing fs p Firmware.efi32 m1 hne hmiss] at h2
      cases h2
    | efi64 =>
      have hb : fl.ipxeEfi64 = p := by
        rw [hefi64, show args.ipxeEfi64 = some p from hset]
        rfl
      rw [hb, applyIpxeFlag_of_missing fs p Firmware.efi64 m2 hne hmiss] at h3
      cases h3
  refine ⟨?_, ?_, ?_⟩
  · intro s hs
    obtain ⟨fl, hok, hsf⟩ := runServerCmd_config env reg fs args s hs
    exact hbad fl s hok hsf
  · rcases runServerCmd_cases env reg fs args with
      ⟨e, hpf, hr⟩ | ⟨fl, e, hok, hsf, hr⟩ | ⟨fl, s, hok, hsf, hr⟩
    · exact ⟨e.code, e.msg, hr, by rw [parseFlags_error_code args e hpf]; norm_num⟩
    · exact ⟨e.code, e.msg, hr, by rw [serverFromFlags_error_code reg fs fl e hsf]; norm_num⟩
    · exact absurd hsf (hbad fl s hok)
  · intro fl hok
    rcases runServerCmd_cases env reg fs args with
      ⟨e, hpf, hr⟩ | ⟨fl2, e, hok2, hsf, hr⟩ | ⟨fl2, s, hok2, hsf, hr⟩
    · rw [hpf] at hok
      cases hok
    · refine ⟨e.msg, ?_⟩
      rw [hr, serverFromFlags_error_code reg fs fl2 e hsf]
    · exact absurd hsf (hbad fl2 s hok2)

/-- Witness for C8's amended theorem at `--ipxe-efi64 missing.bin` over
a file system with no readable files. -/
theorem unreadable_firmware_flag_fatal_witness :
    (∀ s, runServerCmd [] emptyFwMap noFiles argsMissingEfi64 ≠ CLIResult.config s) ∧
    (∃ c m, runServerCmd [] emptyFwMap noFiles argsMissingEfi64
      = CLIResult.fatal c m ∧ c ≠ 0) ∧
    (∀ fl, parseFlags argsMissingEfi64 = Except.ok fl →
      ∃ m, runServerCmd [] emptyFwMap noFiles argsMissingEfi64 = CLIResult.fatal 1 m) :=
  unreadable_firmware_flag_fatal [] emptyFwMap noFiles argsMissingEfi64
    Firmware.efi64 "missing.bin" rfl (by decide) rfl

/-- Claim C9: with the debug flag enabled the produced configuration's
debug logger is the very base logger (hence inherits the timestamp
choice); with it disabled no debug logger is set. -/
theorem debug_amplifies_base_logger (reg : FwMap) (fs : FileSystem) (fl : FlagSet)
    (s : Server) (hok : serverFromFlags reg fs fl = Except.ok s) :
    (fl.debug = true → s.debug = some s.log) ∧
    (fl.debug = false → s.debug = none) ∧
    s.log = (if fl.logTimestamps then LoggerKind.stdLog else LoggerKind.stdFmt) := by
  obtain ⟨-, -, -, hlog, hdebug, -⟩ := serverFromFlags_ok reg fs fl s hok
  refine ⟨?_, ?_, hlog⟩
  · intro hd
    simp [hdebug, hd]
  · intro hd
    simp [hdebug, hd]

/-- Witness for C9 with `--debug --log-timestamps`. -/
theorem debug_amplifies_base_logger_witness :
    (flDebugTs.debug = true → srvDebugTs.debug = some srvDebugTs.log) ∧
    (flDebugTs.debug = false → srvDebugTs.debug = none) ∧
    srvDebugTs.log
      = (if flDebugTs.logTimestamps then LoggerKind.stdLog else LoggerKind.stdFmt) :=
  debug_amplifies_base_logger emptyFwMap noFiles flDebugTs srvDebugTs rfl

/-- Claim C10: the configuration's firmware map is a fresh copy of the
registry, not an alias — replacing the registry's map after construction
leaves the built map unchanged, and the copy agrees with the registry's
contents at construction time. -/
theorem ipxe_copy_not_aliased (h : Heap) (regRef : Nat) (hvalid : regRef < h.next) :
    (∀ m : FwMap,
      (((buildIpxeCopy h regRef).2.write regRef m).read (buildIpxeCopy h regRef).1)
        = (buildIpxeCopy h regRef).2.read (buildIpxeCopy h regRef).1) ∧
    (∀ fw, (buildIpxeCopy h regRef).2.read (buildIpxeCopy h regRef).1 fw
        = h.read regRef fw) := by
  have hne : ¬regRef = h.next := Nat.ne_of_lt hvalid
  have hne2 : ¬h.next = regRef := fun hh => hne hh.symm
  constructor
  · intro m
    simp [buildIpxeCopy, Heap.alloc, Heap.write, Heap.read, hne2]
  · intro fw
    simp [buildIpxeCopy, Heap.alloc, Heap.write, Heap.read, hne, copyFwMap_eq]

/-- Witness for C10 on a one-cell heap with the registry at reference 0. -/
theorem ipxe_copy_not_aliased_witness :
    (∀ m : FwMap,
      (((buildIpxeCopy heap1 0).2.write 0 m).read (buildIpxeCopy heap1 0).1)
        = (buildIpxeCopy heap1 0).2.read (buildIpxeCopy heap1 0).1) ∧
    (∀ fw, (buildIpxeCopy heap1 0).2.read (buildIpxeCopy heap1 0).1 fw
        = heap1.read 0 fw) :=
  ipxe_copy_not_aliased heap1 0 (by decide)

/-- Sanity checks of the `net.ParseIP` / `To4` model against the Go
behaviour on representative literals. -/
theorem parseIP_model_checks :
    parseIPString "1.2.3.4" = some (goIPv4 1 2 3 4) ∧
    parseIPString "::1" = some (List.replicate 15 0 ++ [1]) ∧
    parseIPString "::ffff:1.2.3.4" = some (goIPv4 1 2 3 4) ∧
    parseIPString "::" = some (List.replicate 16 0) ∧
    parseIPString "garbage" = none ∧
    parseIPString "1.2.3" = none ∧
    parseIPString "256.1.1.1" = none ∧
    parseIPString "1:2:3:4:5:6:7:8:9" = none ∧
    parseIPString "1::2::3" = none ∧
    parseIPString "1::" = some [0, 1, 0, 0, 0, 0, 0, 0, 0, 0, 0, 0, 0, 0, 0, 0] ∧
    parseIPString "2001:db8::1"
      = some [0x20, 0x01, 0x0D, 0xB8, 0, 0, 0, 0, 0, 0, 0, 0, 0, 0, 0, 1] ∧
    parseIPString "::1.2.3.4" = some (List.replicate 12 0 ++ [1, 2, 3, 4]) ∧
    parseIPString " 10.0.0.1 " = some (goIPv4 10 0 0 1) ∧
    to4 iPv4zero = some [0, 0, 0, 0] ∧
    to4 (List.replicate 15 0 ++ [1]) = none ∧
    to4 (List.replicate 12 0 ++ [1, 2, 3, 4]) = none := by
  refine ⟨rfl, rfl, rfl, rfl, rfl, rfl, rfl, rfl, rfl, rfl, rfl, rfl, rfl, rfl, rfl, rfl⟩

end Netboot
